import Mathlib

/-!
Shallow embedding of src/src/App.jsx (fund-portal).

React useState setters are modeled as events folded over an explicit render
state record (run).  Each async operation of the component is modeled as a
pure function from the results of the awaited calls it performs to the list
of events it emits, in program order.  JavaScript numbers are modeled as
exact rationals (the rounding performed by parseFloat on the exact decimal
string produced by ethers.formatEther is abstracted away); uint256/int256
contract values are modeled as integers.
-/

/-- Static configuration object (CONFIG in App.jsx). -/
structure Config where
  contractAddress : String
  chainId : Int
  chainName : String
  rpcUrl : String
  blockExplorer : String
deriving DecidableEq

/-- The Base Sepolia configuration from App.jsx. -/
def CONFIG : Config :=
  { contractAddress := "0xF4a8A48813b6edF75E53f21A993D9f72147d86C8",
    chainId := 84532,
    chainName := "Base Sepolia",
    rpcUrl := "https://sepolia.base.org",
    blockExplorer := "https://sepolia.basescan.org" }

/-- parseFloat(ethers.formatEther(v)): divide the 18-decimal fixed-point
    integer by 10^18, modeled as an exact rational. -/
def formatEther (v : Int) : Rat := (v : Rat) / 10 ^ 18

/-- Rounding used by Intl.NumberFormat (default rounding, half away from zero). -/
def roundHalfExpand (q : Rat) : Int :=
  if q < 0 then -(Int.floor (-q + 1 / 2)) else Int.floor (q + 1 / 2)

/-- Left-pad a digit string with zeros to the given length. -/
def padZeros (s : String) (n : Nat) : String :=
  String.mk (List.replicate (n - s.length) '0') ++ s

/-- Render an integer holding a value scaled by 10^decimals as a decimal
    string with exactly that many fraction digits.  Intl grouping separators
    are abstracted away; every claim-relevant magnitude is below the grouping
    threshold. -/
def decimalString (n : Int) (decimals : Nat) : String :=
  if decimals = 0 then toString n
  else
    (if n < 0 then "-" else "")
      ++ toString (n.natAbs / 10 ^ decimals)
      ++ "."
      ++ padZeros (toString (n.natAbs % 10 ^ decimals)) decimals

/-- formatNumber from App.jsx: null/undefined is rendered as a dash, any
    number with a fixed count of fraction digits (minimumFractionDigits =
    maximumFractionDigits = decimals). -/
def formatNumber (num : Option Rat) (decimals : Nat) : String :=
  match num with
  | none => "-"
  | some q => decimalString (roundHalfExpand (q * 10 ^ decimals)) decimals

/-- formatDate from App.jsx: toLocaleDateString is abstracted as a placeholder
    rendering of the timestamp; no claim inspects the rendered date text. -/
def formatDate (timestamp : Int) : String := "date " ++ toString timestamp

/-- Fund-level display record (the fundData state cell). -/
structure FundData where
  name : String
  description : String
  currentNav : Rat
  totalShares : Rat
  inceptionDate : Int
deriving DecidableEq

/-- Per-LP display record (the lpData state cell). -/
structure LpData where
  shares : Rat
  value : Rat
  initialInvestment : Rat
  returnRate : Rat
  investmentDate : Int
deriving DecidableEq

/-- One point of the rendered NAV history. -/
structure NavPoint where
  date : String
  nav : Rat
  timestamp : Int
deriving DecidableEq

/-- The render state: the eight useState cells of App. -/
structure AppState where
  account : Option String
  isConnecting : Bool
  isWhitelisted : Bool
  fundData : Option FundData
  lpData : Option LpData
  navHistory : List NavPoint
  error : Option String
  loading : Bool
deriving DecidableEq

/-- The useState initial values of App. -/
def initialState : AppState :=
  { account := none, isConnecting := false, isWhitelisted := false,
    fundData := none, lpData := none, navHistory := [], error := none,
    loading := true }

/-- State-setter and scheduling events.  lpResolved marks the completion of a
    loadLPData call for the given address (success or absorbed failure);
    walletRequest marks an outbound wallet RPC with no render-state effect. -/
inductive Ev where
  | setAccount (a : Option String)
  | setIsConnecting (b : Bool)
  | setIsWhitelisted (b : Bool)
  | setFundData (d : Option FundData)
  | setLpData (d : Option LpData)
  | setNavHistory (h : List NavPoint)
  | setError (e : Option String)
  | setLoading (b : Bool)
  | lpResolved (address : String)
  | walletRequest (method : String)
deriving DecidableEq

/-- Effect of one event on the render state. -/
def applyEv (s : AppState) : Ev → AppState
  | .setAccount a => { s with account := a }
  | .setIsConnecting b => { s with isConnecting := b }
  | .setIsWhitelisted b => { s with isWhitelisted := b }
  | .setFundData d => { s with fundData := d }
  | .setLpData d => { s with lpData := d }
  | .setNavHistory h => { s with navHistory := h }
  | .setError e => { s with error := e }
  | .setLoading b => { s with loading := b }
  | .lpResolved _ => s
  | .walletRequest _ => s

/-- Fold a trace of events over the render state. -/
def run (s : AppState) (t : List Ev) : AppState := t.foldl applyEv s

/-- Result of an awaited RPC or wallet call: resolved value, or thrown error
    carrying err.message. -/
inductive FetchResult (α : Type) where
  | ok (a : α)
  | err (msg : String)

/-- The five per-address contract reads issued concurrently by loadLPData
    (whitelist, balanceOf, getLPValue, getLPReturn, lpInfo; lpInfo.isActive is
    fetched but never read by the component). -/
structure LPFetch where
  isWL : Bool
  balance : Int
  value : Int
  returnRate : Int
  initialInvestment : Int
  investmentDate : Int
deriving DecidableEq

/-- The lpData record loadLPData builds from a fetch when whitelisted. -/
def lpDataOf (r : LPFetch) : LpData :=
  { shares := formatEther r.balance,
    value := formatEther r.value,
    initialInvestment := formatEther r.initialInvestment,
    returnRate := (r.returnRate : Rat) / 100,
    investmentDate := r.investmentDate }

/-- loadLPData(address): on success it commits the whitelist flag and, only
    when whitelisted, the position record; a failure is caught and only logged
    (console.error), committing nothing.  The lpResolved marker is the
    completion of the async call. -/
def loadLPDataEvents (address : String) (res : FetchResult LPFetch) : List Ev :=
  match res with
  | .ok r =>
    Ev.setIsWhitelisted r.isWL ::
      ((if r.isWL then [Ev.setLpData (some (lpDataOf r))] else [])
        ++ [Ev.lpResolved address])
  | .err _ => [Ev.lpResolved address]

/-- One navHistory(i) tuple (the fields the component reads). -/
structure NavRecord where
  timestamp : Int
  nav : Int
deriving DecidableEq

/-- The scalar fund-level reads plus the per-index navHistory reads. -/
structure FundFetch where
  name : String
  description : String
  nav : Int
  totalSupply : Int
  inceptionDate : Int
  historyLength : Nat
  records : Nat → NavRecord

/-- The fundData record loadFundData builds from its scalar reads. -/
def fundDataOf (f : FundFetch) : FundData :=
  { name := f.name, description := f.description,
    currentNav := formatEther f.nav, totalShares := formatEther f.totalSupply,
    inceptionDate := f.inceptionDate }

/-- One point of the navHistory list built in the per-index loop. -/
def navPointOf (r : NavRecord) : NavPoint :=
  { date := formatDate r.timestamp, nav := formatEther r.nav,
    timestamp := r.timestamp }

/-- The navHistory list: indices 0..length-1 in ascending order. -/
def navHistoryOf (f : FundFetch) : List NavPoint :=
  (List.range f.historyLength).map (fun i => navPointOf (f.records i))

/-- Outcomes of loadFundData: the scalar Promise.all fails, some navHistory(i)
    read fails after the snapshot was committed, or everything succeeds. -/
inductive FundOutcome where
  | ok (f : FundFetch)
  | scalarsFail (msg : String)
  | historyFail (f : FundFetch) (msg : String)

/-- The fixed message set by the loadFundData catch block. -/
def fundErrorMsg : String :=
  "Failed to load fund data. Please check the contract address."

/-- loadFundData: sets loading, commits the snapshot and history on success,
    surfaces the fixed message on failure, and always clears loading in the
    finally block. -/
def loadFundDataEvents (res : FundOutcome) : List Ev :=
  Ev.setLoading true ::
    ((match res with
      | .ok f => [Ev.setFundData (some (fundDataOf f)),
                  Ev.setNavHistory (navHistoryOf f)]
      | .scalarsFail _ => [Ev.setError (some fundErrorMsg)]
      | .historyFail f _ => [Ev.setFundData (some (fundDataOf f)),
                             Ev.setError (some fundErrorMsg)])
      ++ [Ev.setLoading false])

/-- wallet_switchEthereumChain outcome: resolved, or rejected with a code. -/
inductive SwitchOutcome where
  | ok
  | err (code : Int) (msg : String)

/-- Wallet environment for one connectWallet invocation. -/
structure ConnectEnv where
  hasWallet : Bool
  accountsRes : FetchResult (List String)
  walletChainId : Int
  switchRes : SwitchOutcome
  addRes : FetchResult Unit
  lpRes : FetchResult LPFetch

/-- The message set by connectWallet when no provider is present. -/
def noWalletMsg : String := "Please install MetaMask or another Web3 wallet"

/-- The chain check inside connectWallet: no-op when the wallet chain already
    matches the target; otherwise a switch is requested, and a switch
    rejection is swallowed by the inner catch unless its code is 4902, in
    which case wallet_addEthereumChain is requested and its failure escapes to
    the outer catch. -/
def chainStageEvents (env : ConnectEnv) : Except String (List Ev) :=
  if env.walletChainId = CONFIG.chainId then .ok []
  else
    match env.switchRes with
    | .ok => .ok [Ev.walletRequest "wallet_switchEthereumChain"]
    | .err code _ =>
      if code = 4902 then
        match env.addRes with
        | .ok _ => .ok [Ev.walletRequest "wallet_switchEthereumChain",
                        Ev.walletRequest "wallet_addEthereumChain"]
        | .err m => .error m
      else .ok [Ev.walletRequest "wallet_switchEthereumChain"]

/-- connectWallet: sets Connecting and clears the error, requests accounts,
    runs the chain check, awaits loadLPData, then publishes the account and
    clears Connecting; an error escaping to the outer catch surfaces
    err.message and clears Connecting.  An empty granted account list skips
    the whole if block, leaving Connecting set and no error. -/
def connectWalletEvents (env : ConnectEnv) : List Ev :=
  if env.hasWallet = false then [Ev.setError (some noWalletMsg)]
  else
    Ev.setIsConnecting true :: Ev.setError none ::
      (match env.accountsRes with
       | .err m => [Ev.setError (some m), Ev.setIsConnecting false]
       | .ok [] => []
       | .ok (a :: _) =>
         match chainStageEvents env with
         | .error m => [Ev.setError (some m), Ev.setIsConnecting false]
         | .ok chainEvs =>
           chainEvs ++ loadLPDataEvents a env.lpRes
             ++ [Ev.setAccount (some a), Ev.setIsConnecting false])

/-- checkConnectedWallet (mount effect): publishes the account first, then
    awaits loadLPData; errors are only logged. -/
def checkConnectedWalletEvents (hasWallet : Bool)
    (accountsRes : FetchResult (List String))
    (lpRes : FetchResult LPFetch) : List Ev :=
  if hasWallet = false then []
  else
    match accountsRes with
    | .err _ => []
    | .ok [] => []
    | .ok (a :: _) => Ev.setAccount (some a) :: loadLPDataEvents a lpRes

/-- disconnectWallet: clears account, whitelist flag and position in one
    synchronous handler. -/
def disconnectWalletEvents : List Ev :=
  [Ev.setAccount none, Ev.setIsWhitelisted false, Ev.setLpData none]

/-- accountsChanged handler: a non-empty list publishes the first account and
    starts loadLPData without awaiting it; an empty list disconnects. -/
def accountsChangedEvents (accounts : List String)
    (lpRes : FetchResult LPFetch) : List Ev :=
  match accounts with
  | [] => disconnectWalletEvents
  | a :: _ => Ev.setAccount (some a) :: loadLPDataEvents a lpRes

/-- JSX guard of the Your Investment card: account && isWhitelisted && lpData
    && lpData.shares > 0, inside the non-loading branch. -/
def showYourInvestment (s : AppState) : Bool :=
  !s.loading && s.account.isSome && s.isWhitelisted &&
    (match s.lpData with
     | some d => decide ((0 : Rat) < d.shares)
     | none => false)

/-- JSX guard of the Wallet Not Whitelisted card: account && !isWhitelisted,
    inside the non-loading branch. -/
def showNotWhitelisted (s : AppState) : Bool :=
  !s.loading && s.account.isSome && !s.isWhitelisted

/-- JSX guard of the Connect Your Wallet card. -/
def showConnectPrompt (s : AppState) : Bool :=
  !s.loading && !s.account.isSome

/-- JSX guard of the NAV Performance chart: navHistory.length > 1, inside the
    non-loading branch. -/
def showChart (s : AppState) : Bool :=
  !s.loading && decide (1 < s.navHistory.length)

/-- The value the Current NAV card passes to formatNumber
    (fundData?.currentNav). -/
def displayedNavValue (s : AppState) : Option Rat :=
  s.fundData.map (fun f => f.currentNav)

/-- The Current NAV card text. -/
def navCardText (s : AppState) : String :=
  "$" ++ formatNumber (displayedNavValue s) 4

/-- The dynamic part of the since-inception line: sign prefix for
    currentNav >= 1 and (currentNav - 1) * 100 with two fraction digits. -/
def navReturnText (f : FundData) : String :=
  (if (1 : Rat) ≤ f.currentNav then "+" else "") ++
    formatNumber (some ((f.currentNav - 1) * 100)) 2 ++ "%"

/-- Walks a trace keeping the addresses whose loadLPData has resolved; every
    publication of a connected account must be preceded by the resolution of
    that same address's position load. -/
def afterLoadOk (resolved : List String) : List Ev → Bool
  | [] => true
  | Ev.setAccount (some a) :: rest =>
      decide (a ∈ resolved) && afterLoadOk resolved rest
  | Ev.lpResolved a :: rest => afterLoadOk (a :: resolved) rest
  | _ :: rest => afterLoadOk resolved rest

/-- The ordering property of claim C1, as a trace predicate. -/
def accountPublishedAfterLoad (t : List Ev) : Bool := afterLoadOk [] t

/-- A whitelisted LP fetch fixture (5 shares at 18 decimals). -/
def lpWL : LPFetch :=
  { isWL := true, balance := 5000000000000000000,
    value := 5200000000000000000, returnRate := 400,
    initialInvestment := 5000000000000000000, investmentDate := 1700000000 }

/-- A non-whitelisted LP fetch fixture. -/
def lpNoWL : LPFetch :=
  { isWL := false, balance := 0, value := 0, returnRate := 0,
    initialInvestment := 0, investmentDate := 0 }

/-- A fund fetch fixture; nav is the Scenario A fixed-point value. -/
def fundFixture : FundFetch :=
  { name := "Fund", description := "Test fund",
    nav := 1040000000000000000, totalSupply := 1000000000000000000000,
    inceptionDate := 1700000000, historyLength := 3,
    records := fun i =>
      { timestamp := 1700000000 + 86400 * (i : Int),
        nav := 1000000000000000000 + (i : Int) } }

/-- The combined render-state effect of a successful loadLPData commit. -/
def lpCommit (s : AppState) (r : LPFetch) : AppState :=
  { s with
    isWhitelisted := r.isWL,
    lpData := if r.isWL then some (lpDataOf r) else s.lpData }

/-- The trace of an account switch from a whitelisted address to a
    non-whitelisted one: the accountsChanged handler runs for 0xaaaa and its
    load resolves whitelisted, then the handler runs for 0xbbbb and its load
    resolves non-whitelisted. -/
def switchToNonWLTrace : List Ev :=
  accountsChangedEvents ["0xaaaa"] (.ok lpWL)
    ++ accountsChangedEvents ["0xbbbb"] (.ok lpNoWL)

/-- A connect environment where the wallet chain mismatches and the switch
    request is rejected with code 4001 (not 4902). -/
def envSwitchRejected : ConnectEnv :=
  { hasWallet := true, accountsRes := .ok ["0xabcd"], walletChainId := 1,
    switchRes := .err 4001 "rejected switch", addRes := .ok (),
    lpRes := .ok lpNoWL }

/-- A connected, fund-data-loaded render state with no position record. -/
def connectedNoPosition : AppState :=
  { initialState with account := some "0xabcd", loading := false }

/-- A connect environment on the right chain whose position load fails. -/
def envLpFails : ConnectEnv :=
  { hasWallet := true, accountsRes := .ok ["0xabcd"],
    walletChainId := CONFIG.chainId, switchRes := .ok, addRes := .ok (),
    lpRes := .err "rpc failure" }

/-- Interleaving produced by rapid account switching: the accountsChanged
    handler runs for 0xaaaa (its load starts but is still in flight), then for
    0xbbbb whose load resolves first (not whitelisted); finally the superseded
    0xaaaa load resolves (whitelisted).  The handler never awaits loadLPData
    and loadLPData compares nothing before committing, so this schedule is
    reachable. -/
def supersededTrace : List Ev :=
  Ev.setAccount (some "0xaaaa") :: Ev.setAccount (some "0xbbbb") ::
    (loadLPDataEvents "0xbbbb" (.ok lpNoWL)
      ++ loadLPDataEvents "0xaaaa" (.ok lpWL))

/-- A non-loading start state for the superseded-fetch scenario. -/
def mountedState : AppState := { initialState with loading := false }

/-- A render state that does show the chart (two history points, not loading). -/
def chartState : AppState :=
  { initialState with
    loading := false,
    navHistory := [navPointOf { timestamp := 0, nav := 0 },
                   navPointOf { timestamp := 1, nav := 1 }] }

/-- run distributes over trace concatenation. -/
theorem run_append (s : AppState) (t u : List Ev) :
    run s (t ++ u) = run (run s t) u :=
  List.foldl_append applyEv s t u

/-- Render-state effect of one loadLPData run: a success commits the whitelist
    flag and, only when whitelisted, the position; a failure commits nothing. -/
theorem run_loadLPData (s : AppState) (a : String) (res : FetchResult LPFetch) :
    run s (loadLPDataEvents a res) =
      (match res with
       | .ok r => lpCommit s r
       | .err _ => s) := by
  cases res with
  | ok r =>
    obtain ⟨wl, b, v, rr, ii, idate⟩ := r
    cases wl <;> rfl
  | err m => rfl

/-- The tail of a successful connect flow satisfies the ordering check: the
    account publication is preceded by the resolution marker of its own load. -/
theorem afterLoadOk_connect_tail (resolved : List String) (a : String)
    (lp : FetchResult LPFetch) :
    afterLoadOk resolved
      (loadLPDataEvents a lp ++ [Ev.setAccount (some a), Ev.setIsConnecting false])
      = true := by
  cases lp with
  | ok r =>
    obtain ⟨wl, b, v, rr, ii, idate⟩ := r
    cases wl <;> simp [loadLPDataEvents, afterLoadOk]
  | err m => simp [loadLPDataEvents, afterLoadOk]

/-- C1 counterexample: on the mount auto-detect path (checkConnectedWallet), a
    previously authorized account is published as connected before its
    loadLPData resolves, so the claimed ordering fails on that path. -/
theorem C1_counterexample :
    accountPublishedAfterLoad
      (checkConnectedWalletEvents true (.ok ["0xabcd"]) (.ok lpWL)) = false := by
  rfl

/-- C1 amended: the account is published only after its position load resolves
    on the user-initiated connect path, for every wallet environment; on the
    mount auto-detect path and on the accountsChanged path the account is
    published before the corresponding load resolves, whenever at least one
    account is reported. -/
theorem C1_publishAfterLoad :
    (∀ env : ConnectEnv,
      accountPublishedAfterLoad (connectWalletEvents env) = true) ∧
    (∀ (a : String) (rest : List String) (lp : FetchResult LPFetch),
      accountPublishedAfterLoad
        (checkConnectedWalletEvents true (.ok (a :: rest)) lp) = false) ∧
    (∀ (a : String) (rest : List String) (lp : FetchResult LPFetch),
      accountPublishedAfterLoad (accountsChangedEvents (a :: rest) lp) = false) := by
  refine ⟨?_, ?_, ?_⟩
  · intro env
    obtain ⟨hw, accRes, cid, sw, ad, lp⟩ := env
    cases hw
    · rfl
    · cases accRes with
      | err m => rfl
      | ok accounts =>
        cases accounts with
        | nil => rfl
        | cons a rest =>
          by_cases hc : cid = CONFIG.chainId
          · simp [connectWalletEvents, chainStageEvents, hc,
              accountPublishedAfterLoad, afterLoadOk, afterLoadOk_connect_tail]
          · cases sw with
            | ok =>
              simp [connectWalletEvents, chainStageEvents, hc,
                accountPublishedAfterLoad, afterLoadOk, afterLoadOk_connect_tail]
            | err code m =>
              by_cases h4 : code = 4902
              · cases ad with
                | ok u =>
                  simp [connectWalletEvents, chainStageEvents, hc, h4,
                    accountPublishedAfterLoad, afterLoadOk, afterLoadOk_connect_tail]
                | err m2 =>
                  simp [connectWalletEvents, chainStageEvents, hc, h4,
                    accountPublishedAfterLoad, afterLoadOk]
              · simp [connectWalletEvents, chainStageEvents, hc, h4,
                  accountPublishedAfterLoad, afterLoadOk, afterLoadOk_connect_tail]
  · intro a rest lp
    simp [checkConnectedWalletEvents, accountPublishedAfterLoad, afterLoadOk]
  · intro a rest lp
    simp [accountsChangedEvents, accountPublishedAfterLoad, afterLoadOk]

/-- C2 counterexample: after a position load that returned whitelist=false for
    the newly active account, the previously loaded position record is still
    present while the whitelist flag is false and an account is connected, so
    the claimed present-iff-connected-and-whitelisted invariant fails. -/
theorem C2_counterexample :
    (run initialState switchToNonWLTrace).account = some "0xbbbb" ∧
    (run initialState switchToNonWLTrace).isWhitelisted = false ∧
    (run initialState switchToNonWLTrace).lpData = some (lpDataOf lpWL) := by
  refine ⟨rfl, rfl, rfl⟩

/-- C2 amended: explicit disconnect and a zero-account report clear the
    account, the whitelist flag and the position record in the same
    synchronous transition; a position load that returns whitelist=false only
    clears the whitelist flag and leaves any previously loaded position record
    in place (it never populates one); a state whose whitelist flag is false
    never renders the Your Investment card, whatever stale record it holds. -/
theorem C2_positionClearing (s s2 : AppState) (a : String) (r : LPFetch)
    (lp : FetchResult LPFetch) :
    (run s disconnectWalletEvents).account = none ∧
    (run s disconnectWalletEvents).isWhitelisted = false ∧
    (run s disconnectWalletEvents).lpData = none ∧
    run s (accountsChangedEvents [] lp) = run s disconnectWalletEvents ∧
    (run s (loadLPDataEvents a (.ok r))).isWhitelisted = r.isWL ∧
    (run s (loadLPDataEvents a (.ok r))).lpData =
      (if r.isWL then some (lpDataOf r) else s.lpData) ∧
    showYourInvestment { s2 with isWhitelisted := false } = false := by
  refine ⟨rfl, rfl, rfl, rfl, ?_, ?_, ?_⟩
  · rw [run_loadLPData]; rfl
  · rw [run_loadLPData]; simp [lpCommit]
  · simp [showYourInvestment]

/-- C3 counterexample: when the chain switch fails with code 4001, the connect
    flow does not fall back to Disconnected; it proceeds, publishes the
    account and surfaces no error, contradicting the claimed transition. -/
theorem C3_counterexample :
    (run initialState (connectWalletEvents envSwitchRejected)).account
        = some "0xabcd" ∧
    (run initialState (connectWalletEvents envSwitchRejected)).error = none ∧
    (run initialState (connectWalletEvents envSwitchRejected)).isConnecting
        = false := by
  refine ⟨rfl, rfl, rfl⟩

/-- C3 amended: a chain-switch rejection with code other than 4902 is
    swallowed by the inner catch, and the connect flow proceeds to publish the
    account as connected with no surfaced error; only errors reaching the
    outer catch (such as a rejected account request) reset Connecting to
    Disconnected with a surfaced message. -/
theorem C3_switchFailureSwallowed (s : AppState) (a : String)
    (rest : List String) (cid code : Int) (m m2 : String)
    (ad : FetchResult Unit) (lp : FetchResult LPFetch)
    (hcid : ¬ cid = CONFIG.chainId) (hcode : ¬ code = 4902) :
    ((run s (connectWalletEvents
        ⟨true, .ok (a :: rest), cid, .err code m, ad, lp⟩)).account = some a ∧
     (run s (connectWalletEvents
        ⟨true, .ok (a :: rest), cid, .err code m, ad, lp⟩)).error = none ∧
     (run s (connectWalletEvents
        ⟨true, .ok (a :: rest), cid, .err code m, ad, lp⟩)).isConnecting = false) ∧
    ((run s (connectWalletEvents
        ⟨true, .err m2, cid, .err code m, ad, lp⟩)).account = s.account ∧
     (run s (connectWalletEvents
        ⟨true, .err m2, cid, .err code m, ad, lp⟩)).error = some m2 ∧
     (run s (connectWalletEvents
        ⟨true, .err m2, cid, .err code m, ad, lp⟩)).isConnecting = false) := by
  constructor
  · have hchain : chainStageEvents ⟨true, .ok (a :: rest), cid, .err code m, ad, lp⟩
        = .ok [Ev.walletRequest "wallet_switchEthereumChain"] := by
      simp [chainStageEvents, hcid, hcode]
    cases lp with
    | ok r =>
      obtain ⟨wl, b, v, rr, ii, idate⟩ := r
      cases wl <;>
        simp [connectWalletEvents, hchain, run, applyEv, loadLPDataEvents]
    | err m3 =>
      simp [connectWalletEvents, hchain, run, applyEv, loadLPDataEvents]
  · refine ⟨rfl, rfl, rfl⟩

/-- C3 witness: the amended theorem applied at a concrete environment. -/
theorem C3_witness :
    (run initialState (connectWalletEvents
        ⟨true, .ok ["0xf00d"], 8453, .err 4001 "switch rejected", .ok (),
         .ok lpWL⟩)).account = some "0xf00d" ∧
    (run initialState (connectWalletEvents
        ⟨true, .ok ["0xf00d"], 8453, .err 4001 "switch rejected", .ok (),
         .ok lpWL⟩)).error = none :=
  ⟨(C3_switchFailureSwallowed initialState "0xf00d" [] 8453 4001
      "switch rejected" "denied" (.ok ()) (.ok lpWL)
      (by decide) (by decide)).1.1,
   (C3_switchFailureSwallowed initialState "0xf00d" [] 8453 4001
      "switch rejected" "denied" (.ok ()) (.ok lpWL)
      (by decide) (by decide)).1.2.1⟩

/-- C4: every fixed-point value received from the contract (current NAV, total
    supply, NAV history points, share balance, position value, initial
    investment) is stored divided by 10^18, and the value handed to the
    display layer is exactly that stored value, so the scaling is applied
    exactly once between the raw integer and the displayed quantity. -/
theorem C4_fixedPointScaling (s : AppState) (f : FundFetch) (a : String)
    (r : LPFetch) :
    (run s (loadFundDataEvents (.ok f))).fundData =
      some { name := f.name, description := f.description,
             currentNav := (f.nav : Rat) / 10 ^ 18,
             totalShares := (f.totalSupply : Rat) / 10 ^ 18,
             inceptionDate := f.inceptionDate } ∧
    (run s (loadFundDataEvents (.ok f))).navHistory.map NavPoint.nav =
      (List.range f.historyLength).map
        (fun i => ((f.records i).nav : Rat) / 10 ^ 18) ∧
    displayedNavValue (run s (loadFundDataEvents (.ok f))) =
      some ((f.nav : Rat) / 10 ^ 18) ∧
    (run s (loadLPDataEvents a (.ok { r with isWL := true }))).lpData =
      some { shares := (r.balance : Rat) / 10 ^ 18,
             value := (r.value : Rat) / 10 ^ 18,
             initialInvestment := (r.initialInvestment : Rat) / 10 ^ 18,
             returnRate := (r.returnRate : Rat) / 100,
             investmentDate := r.investmentDate } := by
  refine ⟨?_, ?_, ?_, ?_⟩
  · simp [run, loadFundDataEvents, applyEv, fundDataOf, formatEther]
  · simp [run, loadFundDataEvents, applyEv, navHistoryOf, navPointOf,
      formatEther]
  · simp [displayedNavValue, run, loadFundDataEvents, applyEv, fundDataOf,
      formatEther]
  · rw [run_loadLPData]
    simp [lpCommit, lpDataOf, formatEther]

/-- C5: when the whitelist query returns false for the active account,
    loadLPData sets the whitelist flag to false and populates no numeric
    position field (a state with no position keeps none), and the resulting
    render state takes the Wallet Not Whitelisted path, not Your Investment. -/
theorem C5_notWhitelistedPath (s : AppState) (a : String) (r : LPFetch)
    (hacc : s.account = some a) (hlp : s.lpData = none)
    (hload : s.loading = false) :
    (run s (loadLPDataEvents a (.ok { r with isWL := false }))).isWhitelisted
        = false ∧
    (run s (loadLPDataEvents a (.ok { r with isWL := false }))).lpData = none ∧
    showYourInvestment
        (run s (loadLPDataEvents a (.ok { r with isWL := false }))) = false ∧
    showNotWhitelisted
        (run s (loadLPDataEvents a (.ok { r with isWL := false }))) = true := by
  rw [run_loadLPData]
  refine ⟨rfl, ?_, ?_, ?_⟩
  · simpa [lpCommit] using hlp
  · simp [lpCommit, showYourInvestment]
  · simp [lpCommit, showNotWhitelisted, hacc, hload]

/-- C5 witness: the theorem applied at a concrete connected state and fetch. -/
theorem C5_witness :
    connectedNoPosition.account = some "0xabcd" ∧
    connectedNoPosition.lpData = none ∧
    connectedNoPosition.loading = false ∧
    (showYourInvestment (run connectedNoPosition
        (loadLPDataEvents "0xabcd" (.ok { lpWL with isWL := false }))) = false ∧
     showNotWhitelisted (run connectedNoPosition
        (loadLPDataEvents "0xabcd" (.ok { lpWL with isWL := false }))) = true) :=
  ⟨rfl, rfl, rfl,
   (C5_notWhitelistedPath connectedNoPosition "0xabcd" lpWL rfl rfl rfl).2.2.1,
   (C5_notWhitelistedPath connectedNoPosition "0xabcd" lpWL rfl rfl rfl).2.2.2⟩

/-- C6 counterexample: when loadLPData fails during connect, the account is
    still published and the failure is absorbed, but no error message is
    surfaced and the loading flag is untouched (still true from mount), so the
    claimed conversion into a surfaced message plus loading=false is false. -/
theorem C6_counterexample :
    (run initialState (connectWalletEvents envLpFails)).account
        = some "0xabcd" ∧
    (run initialState (connectWalletEvents envLpFails)).error = none ∧
    (run initialState (connectWalletEvents envLpFails)).loading = true := by
  refine ⟨rfl, rfl, rfl⟩

/-- C6 amended: a loadLPData failure is caught and only logged, committing no
    state change at all (no surfaced error, loading untouched, no whitelist or
    position update); connection is not blocked, and the connect flow still
    publishes the account with the position left unpopulated and no error. -/
theorem C6_lpFailureAbsorbed (s : AppState) (a : String) (rest : List String)
    (m : String) (sw : SwitchOutcome) (ad : FetchResult Unit) :
    run s (loadLPDataEvents a (.err m)) = s ∧
    ((run s (connectWalletEvents
        ⟨true, .ok (a :: rest), CONFIG.chainId, sw, ad, .err m⟩)).account
          = some a ∧
     (run s (connectWalletEvents
        ⟨true, .ok (a :: rest), CONFIG.chainId, sw, ad, .err m⟩)).error = none ∧
     (run s (connectWalletEvents
        ⟨true, .ok (a :: rest), CONFIG.chainId, sw, ad, .err m⟩)).lpData
          = s.lpData ∧
     (run s (connectWalletEvents
        ⟨true, .ok (a :: rest), CONFIG.chainId, sw, ad, .err m⟩)).loading
          = s.loading ∧
     (run s (connectWalletEvents
        ⟨true, .ok (a :: rest), CONFIG.chainId, sw, ad, .err m⟩)).isConnecting
          = false) := by
  refine ⟨rfl, ?_⟩
  simp [connectWalletEvents, chainStageEvents, run, applyEv, loadLPDataEvents]

/-- C7 counterexample: the superseded fetch for 0xaaaa is committed after the
    switch to 0xbbbb, leaving the non-whitelisted active account rendered with
    the stale whitelisted position, so the claimed discard-on-mismatch guard
    does not exist. -/
theorem C7_counterexample :
    (run mountedState supersededTrace).account = some "0xbbbb" ∧
    (run mountedState supersededTrace).isWhitelisted = true ∧
    (run mountedState supersededTrace).lpData = some (lpDataOf lpWL) ∧
    showYourInvestment (run mountedState supersededTrace) = true := by
  have hstate : run mountedState supersededTrace =
      { account := some "0xbbbb", isConnecting := false, isWhitelisted := true,
        fundData := none, lpData := some (lpDataOf lpWL), navHistory := [],
        error := none, loading := false } := rfl
  have hpos : (0 : Rat) < (lpDataOf lpWL).shares := by
    norm_num [lpDataOf, lpWL, formatEther]
  refine ⟨rfl, rfl, rfl, ?_⟩
  rw [hstate]
  simp [showYourInvestment, hpos]

/-- C7 amended: loadLPData commits its results unconditionally when it
    resolves, without comparing the resolved address against the currently
    active account, so results from a superseded fetch are committed like any
    other (the current account is left as it is, whatever it is). -/
theorem C7_noStaleGuard (s : AppState) (a b : String) (r : LPFetch) :
    (run { s with account := some b } (loadLPDataEvents a (.ok r))).account
        = some b ∧
    (run { s with account := some b } (loadLPDataEvents a (.ok r))).isWhitelisted
        = r.isWL ∧
    (run { s with account := some b } (loadLPDataEvents a (.ok r))).lpData
        = (if r.isWL then some (lpDataOf r) else s.lpData) := by
  rw [run_loadLPData]
  refine ⟨rfl, rfl, ?_⟩
  simp [lpCommit]

/-- roundHalfExpand at a nonnegative integer value is that integer. -/
theorem roundHalfExpand_intCast (n : Int) (h : 0 ≤ n) :
    roundHalfExpand ((n : Rat)) = n := by
  have h0 : ¬ ((n : Rat) < 0) := by
    simp only [not_lt]
    exact_mod_cast h
  have h1 : ⌊(1 / 2 : Rat)⌋ = 0 := by
    rw [Int.floor_eq_zero_iff]
    constructor <;> norm_num
  rw [roundHalfExpand, if_neg h0, Int.floor_int_add, h1, add_zero]

/-- Evaluation of formatNumber when the scaled value is a whole nonneg number. -/
theorem formatNumber_eval (q : Rat) (n : Int) (d : Nat) (h0 : 0 ≤ n)
    (hq : q * 10 ^ d = (n : Rat)) :
    formatNumber (some q) d = decimalString n d := by
  simp only [formatNumber, hq, roundHalfExpand_intCast n h0]

/-- C8: Scenario A, for the fixed-point current NAV 1040000000000000000 the
    stored and displayed NAV value is 1.04 (rendered with four fraction digits
    as $1.0400) and the rendered since-inception return is +4.00%. -/
theorem C8_scenarioA :
    displayedNavValue (run initialState (loadFundDataEvents (.ok fundFixture)))
        = some ((104 : Rat) / 100) ∧
    navCardText (run initialState (loadFundDataEvents (.ok fundFixture)))
        = "$1.0400" ∧
    (run initialState (loadFundDataEvents (.ok fundFixture))).fundData.map
        navReturnText = some "+4.00%" := by
  have hnav : formatEther 1040000000000000000 = (104 : Rat) / 100 := by
    norm_num [formatEther]
  have hfund : (run initialState (loadFundDataEvents (.ok fundFixture))).fundData
      = some (fundDataOf fundFixture) := rfl
  have hcur : (fundDataOf fundFixture).currentNav = (104 : Rat) / 100 := hnav
  refine ⟨?_, ?_, ?_⟩
  · simp [displayedNavValue, hfund, hcur]
  · have hfn : formatNumber (some ((104 : Rat) / 100)) 4 = decimalString 10400 4 :=
      formatNumber_eval _ 10400 4 (by norm_num) (by norm_num)
    have hdn : displayedNavValue
        (run initialState (loadFundDataEvents (.ok fundFixture)))
        = some ((104 : Rat) / 100) := by
      simp [displayedNavValue, hfund, hcur]
    rw [navCardText, hdn, hfn]
    decide
  · have h1 : (1 : Rat) ≤ (104 : Rat) / 100 := by norm_num
    have hfn : formatNumber (some (((104 : Rat) / 100 - 1) * 100)) 2
        = decimalString 400 2 :=
      formatNumber_eval _ 400 2 (by norm_num) (by norm_num)
    rw [hfund]
    show some (navReturnText (fundDataOf fundFixture)) = some "+4.00%"
    rw [navReturnText, hcur, if_pos h1, hfn]
    decide

/-- C9: when getNavHistoryLength returns 0, loadFundData produces an empty
    navHistory, the chart is not rendered afterwards, a one-point history also
    leaves the chart unrendered, and whenever the chart is rendered the
    navHistory length is strictly greater than 1. -/
theorem C9_emptyHistory (s s2 s3 : AppState) (f : FundFetch) (p : NavPoint)
    (h : showChart s3 = true) :
    navHistoryOf { f with historyLength := 0 } = [] ∧
    (run s (loadFundDataEvents (.ok { f with historyLength := 0 }))).navHistory
        = [] ∧
    showChart (run s (loadFundDataEvents (.ok { f with historyLength := 0 })))
        = false ∧
    showChart { s2 with navHistory := [p] } = false ∧
    showChart { s2 with navHistory := [] } = false ∧
    1 < s3.navHistory.length := by
  refine ⟨rfl, rfl, ?_, ?_, ?_, ?_⟩
  · simp [showChart, run, loadFundDataEvents, applyEv, navHistoryOf]
  · simp [showChart]
  · simp [showChart]
  · simp only [showChart, Bool.and_eq_true, decide_eq_true_eq] at h
    exact h.2

/-- C9 witness: the theorem applied at chartState and a concrete fetch. -/
theorem C9_witness :
    showChart chartState = true ∧
    ((run initialState
        (loadFundDataEvents (.ok { fundFixture with historyLength := 0 }))).navHistory
          = [] ∧
     1 < chartState.navHistory.length) :=
  ⟨rfl,
   (C9_emptyHistory initialState initialState chartState fundFixture
      (navPointOf { timestamp := 0, nav := 0 }) rfl).2.1,
   (C9_emptyHistory initialState initialState chartState fundFixture
      (navPointOf { timestamp := 0, nav := 0 }) rfl).2.2.2.2.2⟩

/-- C10: when eth_requestAccounts resolves with an empty account list, the
    connect flow returns with isConnecting still true, no error set and no
    account published, leaving the UI in Connecting indefinitely. -/
theorem C10_emptyAccountsStuck (s : AppState) (cid : Int) (sw : SwitchOutcome)
    (ad : FetchResult Unit) (lp : FetchResult LPFetch) :
    (run s (connectWalletEvents ⟨true, .ok [], cid, sw, ad, lp⟩)).isConnecting
        = true ∧
    (run s (connectWalletEvents ⟨true, .ok [], cid, sw, ad, lp⟩)).error
        = none ∧
    (run s (connectWalletEvents ⟨true, .ok [], cid, sw, ad, lp⟩)).account
        = s.account ∧
    (run initialState
        (connectWalletEvents ⟨true, .ok [], cid, sw, ad, lp⟩)).account
        = none := by
  refine ⟨rfl, rfl, rfl, rfl⟩
